import Mathlib

/-!
Verification of the EVC mask resolution and application workflow of
`main.go` (govmomi-playground), as a shallow embedding in Lean 4.

Pure logic (the supported-baseline scan, request construction, the
configuration pre-flight check) is translated directly from the source.
Remote collaborators (session establishment, finder lookups, the property
collector, the async apply call and the task wait) are modelled as an
explicit environment of oracles; `doThings` threads them exactly in the
order of the source and also returns the trace of collaborator calls it
issued, so that claims about call order, scoping and fail-fast behaviour
become statements about the trace.
-/

namespace GovmomiPlayground

/-- vim25 `types.ManagedObjectReference`: an opaque handle (type, value). -/
structure ManagedObjectReference where
  refType : String
  refValue : String
  deriving DecidableEq

/-- vim25 `types.HostFeatureMask`, the fields used by main.go lines 96-98:
key, feature name and string-encoded value. -/
structure HostFeatureMask where
  key : String
  featureName : String
  value : String
  deriving DecidableEq

/-- vim25 `types.ElementDescription`, restricted to the `Key` field read at
main.go line 88. -/
structure ElementDescription where
  key : String
  deriving DecidableEq

/-- vim25 `types.EVCMode`, restricted to the fields read by main.go:
the description key and the feature mask list. -/
structure EVCMode where
  elementDescription : ElementDescription
  featureMask : List HostFeatureMask
  deriving DecidableEq

/-- The slice of `mo.ClusterEVCManager` state read at main.go line 87:
`EvcState.SupportedEVCMode`, an ordered table of EVC modes. -/
structure ClusterEVCManagerEVCState where
  supportedEVCMode : List EVCMode
  deriving DecidableEq

/-- The error message built at main.go line 94:
`fmt.Errorf("error finding EVC feature masks for %s", evcMode)`. -/
def unsupportedBaselineMsg (evcMode : String) : String :=
  "error finding EVC feature masks for " ++ evcMode

/-- The loop of main.go lines 86-92: `masks` starts nil; scan
`SupportedEVCMode` in order, and at the first entry whose
`ElementDescription.Key` equals `evcMode` take its `FeatureMask` and break. -/
def resolveMasksLoop (supported : List EVCMode) (evcMode : String) :
    List HostFeatureMask :=
  match supported with
  | [] => []
  | e :: rest =>
    if e.elementDescription.key = evcMode then e.featureMask
    else resolveMasksLoop rest evcMode

/-- main.go lines 86-95: run the scan loop, then
`if len(masks) == 0 { return fmt.Errorf(...) }`. -/
def resolveMasks (supported : List EVCMode) (evcMode : String) :
    Except String (List HostFeatureMask) :=
  let masks := resolveMasksLoop supported evcMode
  if masks.length = 0 then Except.error (unsupportedBaselineMsg evcMode)
  else Except.ok masks

/-- Spec-side restatement of mask resolution for the amended claim C1:
first match selected by `List.find?`; failure exactly when no entry matches
or the first matching entry carries an empty mask list. -/
def resolveMasksFirstMatchSpec (supported : List EVCMode) (evcMode : String) :
    Except String (List HostFeatureMask) :=
  match supported.find? (fun e => e.elementDescription.key = evcMode) with
  | none => Except.error (unsupportedBaselineMsg evcMode)
  | some e =>
    if e.featureMask.length = 0 then Except.error (unsupportedBaselineMsg evcMode)
    else Except.ok e.featureMask

theorem resolveMasksLoop_eq_find (supported : List EVCMode) (evcMode : String) :
    resolveMasksLoop supported evcMode =
      match supported.find? (fun e => e.elementDescription.key = evcMode) with
      | none => []
      | some e => e.featureMask := by
  induction supported with
  | nil => rfl
  | cons e rest ih =>
    by_cases h : e.elementDescription.key = evcMode
    · simp [resolveMasksLoop, List.find?, h]
    · simp [resolveMasksLoop, List.find?, h, ih]

/-- The request body of vim25 `types.ApplyEvcModeVM_Task` as constructed at
main.go lines 100-105: target VM reference, mask list, completeness flag
(a nullable boolean in the SDK, hence `Option Bool`). -/
structure ApplyEvcModeVM_Task where
  thisRef : ManagedObjectReference
  mask : List HostFeatureMask
  completeMasks : Option Bool
  deriving DecidableEq

/-- The part of `find.Finder` state relevant here: the datacenter set by
`finder.SetDatacenter` (main.go line 57), or none for a fresh finder as
returned by `find.NewFinder` (lines 52 and 65). -/
structure Finder where
  datacenter : Option ManagedObjectReference
  deriving DecidableEq

/-- Terminal outcome the server eventually reports for the async apply task. -/
inductive TaskOutcome where
  | success
  | failure (reason : String)
  deriving DecidableEq

/-- The aspect of `context.Context` the workflow observes: whether the
cancellation signal fires while the task wait is blocked. -/
structure Ctx where
  cancelledDuringAwait : Bool
  deriving DecidableEq

/-- Modelled from the spec: govmomi `object.Task.Wait` at main.go line 115 is
library code not under src/. Per spec sections 4.3 and 5, the wait blocks until
the server reports a terminal state; on terminal failure the server-reported
reason is propagated verbatim, and if the cancellation signal of the threaded
`ctx` fires during the wait, the wait aborts with a cancellation error
(Go context cancellation surfaces the text "context canceled"). -/
def taskWaitModel (ctx : Ctx) (outcome : TaskOutcome) : Except String Unit :=
  if ctx.cancelledDuringAwait then Except.error "context canceled"
  else
    match outcome with
    | TaskOutcome.success => Except.ok ()
    | TaskOutcome.failure reason => Except.error reason

/-- One call issued to a remote collaborator, in the order `doThings` makes
them. Finder-based lookups record the datacenter context of the finder that
performed them. -/
inductive CallEvent where
  | connect
  | findDatacenter (name : String)
  | findVirtualMachine (finderDatacenter : Option ManagedObjectReference) (name : String)
  | findClusterOrDefault (finderDatacenter : Option ManagedObjectReference) (name : String)
  | evcManagerMethod (cluster : ManagedObjectReference)
  | retrieveOne (mgr : ManagedObjectReference)
  | applyEvcModeVMTask (req : ApplyEvcModeVM_Task)
  | taskWait (task : ManagedObjectReference)
  deriving DecidableEq

/-- The remote collaborators consumed by `doThings`, as oracles: session
establishment (`createClient`), the finder lookups, the `EvcManager` method,
the property-collector retrieval, the async apply submission, and the terminal
outcome the server eventually reports for a task. -/
structure Env where
  connect : Except String Unit
  datacenterLookup : String → Except String ManagedObjectReference
  virtualMachineLookup : Finder → String → Except String ManagedObjectReference
  clusterLookup : Finder → String → Except String ManagedObjectReference
  evcManagerOf : ManagedObjectReference → Except String ManagedObjectReference
  retrieveEvcState : ManagedObjectReference → Except String ClusterEVCManagerEVCState
  submitApply : ApplyEvcModeVM_Task → Except String ManagedObjectReference
  taskOutcome : ManagedObjectReference → TaskOutcome

/-- main.go lines 45-116, `doThings`: create the client, resolve the
datacenter, set it on the finder, resolve the VM with that finder, resolve the
cluster with a fresh finder (`find.NewFinder(c.Client)` at line 65, no
datacenter set), fetch the EVC manager and its state, resolve the mask list,
build the apply request with `CompleteMasks = &true`, submit it, and wait for
the task. Returns the trace of remote calls plus the result. -/
def doThings (env : Env) (ctx : Ctx) (dc cluster evcMode vmName : String) :
    List CallEvent × Except String Unit :=
  match env.connect with
  | Except.error e => ([CallEvent.connect], Except.error e)
  | Except.ok _ =>
  match env.datacenterLookup dc with
  | Except.error e =>
    ([CallEvent.connect, CallEvent.findDatacenter dc], Except.error e)
  | Except.ok dcObj =>
  match env.virtualMachineLookup (Finder.mk (some dcObj)) vmName with
  | Except.error e =>
    ([CallEvent.connect, CallEvent.findDatacenter dc,
      CallEvent.findVirtualMachine (some dcObj) vmName], Except.error e)
  | Except.ok vm =>
  match env.clusterLookup (Finder.mk none) cluster with
  | Except.error e =>
    ([CallEvent.connect, CallEvent.findDatacenter dc,
      CallEvent.findVirtualMachine (some dcObj) vmName,
      CallEvent.findClusterOrDefault none cluster], Except.error e)
  | Except.ok clusterObj =>
  match env.evcManagerOf clusterObj with
  | Except.error e =>
    ([CallEvent.connect, CallEvent.findDatacenter dc,
      CallEvent.findVirtualMachine (some dcObj) vmName,
      CallEvent.findClusterOrDefault none cluster,
      CallEvent.evcManagerMethod clusterObj], Except.error e)
  | Except.ok evcMgrRef =>
  match env.retrieveEvcState evcMgrRef with
  | Except.error e =>
    ([CallEvent.connect, CallEvent.findDatacenter dc,
      CallEvent.findVirtualMachine (some dcObj) vmName,
      CallEvent.findClusterOrDefault none cluster,
      CallEvent.evcManagerMethod clusterObj,
      CallEvent.retrieveOne evcMgrRef], Except.error e)
  | Except.ok evcState =>
  match resolveMasks evcState.supportedEVCMode evcMode with
  | Except.error e =>
    ([CallEvent.connect, CallEvent.findDatacenter dc,
      CallEvent.findVirtualMachine (some dcObj) vmName,
      CallEvent.findClusterOrDefault none cluster,
      CallEvent.evcManagerMethod clusterObj,
      CallEvent.retrieveOne evcMgrRef], Except.error e)
  | Except.ok masks =>
  let req : ApplyEvcModeVM_Task :=
    { thisRef := vm, mask := masks, completeMasks := some true }
  match env.submitApply req with
  | Except.error e =>
    ([CallEvent.connect, CallEvent.findDatacenter dc,
      CallEvent.findVirtualMachine (some dcObj) vmName,
      CallEvent.findClusterOrDefault none cluster,
      CallEvent.evcManagerMethod clusterObj,
      CallEvent.retrieveOne evcMgrRef,
      CallEvent.applyEvcModeVMTask req], Except.error e)
  | Except.ok taskRef =>
    ([CallEvent.connect, CallEvent.findDatacenter dc,
      CallEvent.findVirtualMachine (some dcObj) vmName,
      CallEvent.findClusterOrDefault none cluster,
      CallEvent.evcManagerMethod clusterObj,
      CallEvent.retrieveOne evcMgrRef,
      CallEvent.applyEvcModeVMTask req,
      CallEvent.taskWait taskRef], taskWaitModel ctx (env.taskOutcome taskRef))

/-- The four flag values parsed at main.go lines 22-25; absent flags parse to
their defaults (empty string for dc, cluster, vm). -/
structure Flags where
  dc : String
  cluster : String
  vm : String
  evcMode : String
  deriving DecidableEq

/-- The three environment variables read at main.go lines 33 and 118-124;
`os.Getenv` yields the empty string when a variable is absent. -/
structure EnvVars where
  govcPassword : String
  govcUsername : String
  govcUrl : String
  deriving DecidableEq

/-- main.go lines 28-36: the pre-flight configuration check, returning the
diagnostic printed before `os.Exit(1)`, or none when all six values are set. -/
def configCheck (f : Flags) (v : EnvVars) : Option String :=
  if f.dc = "" ∨ f.cluster = "" ∨ f.vm = "" then
    some "dc, cluster, and vm are required flags"
  else if v.govcPassword = "" ∨ v.govcUsername = "" ∨ v.govcUrl = "" then
    some "GOVC_PASSWORD, GOVC_USERNAME, and GOVC_URL are required env vars"
  else none

/-- main.go lines 21-43, `main`: run the configuration check; only when it
passes call `doThings` with the flag values. A configuration failure issues no
remote call at all (empty trace). -/
def mainRun (f : Flags) (v : EnvVars) (env : Env) (ctx : Ctx) :
    List CallEvent × Except String Unit :=
  match configCheck f v with
  | some msg => ([], Except.error msg)
  | none => doThings env ctx f.dc f.cluster f.evcMode f.vm

/-- main.go lines 39-42: the diagnostic line `error: %s` printed to stderr
when `doThings` fails; none on success. -/
def mainReport : Except String Unit → Option String
  | Except.ok _ => none
  | Except.error e => some ("error: " ++ e)

/-- The URL and soap client configuration built by `createClient`
(main.go lines 118-126): scheme https, host from GOVC_URL, path /sdk,
userinfo from GOVC_USERNAME and GOVC_PASSWORD, and the second argument of
`soap.NewClient(u, true)`, the insecure flag. -/
structure SoapClientConfig where
  scheme : String
  host : String
  path : String
  userinfoName : String
  userinfoPassword : String
  insecure : Bool
  deriving DecidableEq

/-- main.go lines 118-126: the configuration `createClient` hands to
`soap.NewClient`; the insecure argument is the literal `true`. -/
def createClientSoapConfig (v : EnvVars) : SoapClientConfig :=
  { scheme := "https", host := v.govcUrl, path := "/sdk",
    userinfoName := v.govcUsername, userinfoPassword := v.govcPassword,
    insecure := true }

/-- Modelled from the spec: govmomi `find.Finder.ClusterComputeResourceOrDefault`
(main.go line 65) is library code not under src/. Per spec section 4.1, the
lookup accepts an empty name and falls back to the single default cluster when
exactly one cluster exists in scope; an empty name with no cluster or with
multiple clusters is a failure; a nonempty name resolves by match or fails
NotFound. The in-scope clusters are given as (name, reference) pairs. -/
def clusterComputeResourceOrDefault
    (scope : List (String × ManagedObjectReference)) (name : String) :
    Except String ManagedObjectReference :=
  if name = "" then
    match scope with
    | [] => Except.error "no default cluster found"
    | [c] => Except.ok c.2
    | _ => Except.error "multiple clusters found, default is ambiguous"
  else
    match scope.find? (fun c => c.1 = name) with
    | some c => Except.ok c.2
    | none => Except.error ("cluster " ++ name ++ " not found")

/-- A concrete feature mask for witnesses, after spec section 8 scenario 6. -/
def sampleMask : HostFeatureMask :=
  { key := "f1", featureName := "cpuid.AES", value := "1" }

/-- A concrete EVC state whose table supports the baseline
"intel-sandybridge" with the single mask `sampleMask`. -/
def sampleState : ClusterEVCManagerEVCState :=
  { supportedEVCMode :=
      [ { elementDescription := { key := "intel-sandybridge" },
          featureMask := [sampleMask] } ] }

/-- A concrete collaborator environment in which every remote call succeeds
and the apply task terminates in success; used to witness the theorems. -/
def sampleEnv : Env :=
  { connect := Except.ok (),
    datacenterLookup := fun _ => Except.ok ⟨"Datacenter", "datacenter-1"⟩,
    virtualMachineLookup := fun _ _ => Except.ok ⟨"VirtualMachine", "vm-1"⟩,
    clusterLookup := fun _ _ => Except.ok ⟨"ClusterComputeResource", "domain-c1"⟩,
    evcManagerOf := fun _ => Except.ok ⟨"ClusterEVCManager", "evcm-1"⟩,
    retrieveEvcState := fun _ => Except.ok sampleState,
    submitApply := fun _ => Except.ok ⟨"Task", "task-1"⟩,
    taskOutcome := fun _ => TaskOutcome.success }

/-- Claim C1, counterexample: the claim says resolution fails if and only if no
entry key matches, but on the table whose single entry has the matching key
"intel-sandybridge" and an empty FeatureMaskList the code still fails, because
main.go line 93 tests `len(masks) == 0` to detect a missing baseline. -/
theorem resolveMasks_match_empty_mask_cex :
    (EVCMode.mk (ElementDescription.mk "intel-sandybridge") []).elementDescription.key
        = "intel-sandybridge" ∧
    resolveMasks [EVCMode.mk (ElementDescription.mk "intel-sandybridge") []]
        "intel-sandybridge"
      = Except.error "error finding EVC feature masks for intel-sandybridge" := by
  constructor
  · rfl
  · rfl

/-- Claim C1, amended: mask resolution equals first-match lookup, except that
it also fails with the UnsupportedBaseline error when the first matching
entry's FeatureMaskList is empty; duplicates are still decided by the first
occurrence in table order, and an empty table fails. -/
theorem resolveMasks_first_match_characterization
    (supported : List EVCMode) (evcMode : String) :
    resolveMasks supported evcMode = resolveMasksFirstMatchSpec supported evcMode := by
  unfold resolveMasks resolveMasksFirstMatchSpec
  rw [resolveMasksLoop_eq_find]
  cases h : supported.find? (fun e => e.elementDescription.key = evcMode) with
  | none => rfl
  | some e => rfl

/-- Claim C8: whenever mask resolution fails, the error message contains the
requested baseline name. -/
theorem unsupported_baseline_error_mentions_name
    (supported : List EVCMode) (evcMode e : String)
    (h : resolveMasks supported evcMode = Except.error e) :
    ∃ pre post, e = pre ++ evcMode ++ post := by
  refine ⟨"error finding EVC feature masks for ", "", ?_⟩
  unfold resolveMasks at h
  dsimp only at h
  split at h
  · simp only [Except.error.injEq] at h
    rw [← h]
    unfold unsupportedBaselineMsg
    rw [String.append_empty]
  · exact absurd h (by simp)

/-- Claim C8, witness: on the empty table and the name "intel-haswell" the
resolution error embeds the requested name. -/
theorem unsupported_baseline_error_mentions_name_witness :
    ∃ pre post,
      "error finding EVC feature masks for intel-haswell"
        = pre ++ "intel-haswell" ++ post :=
  unsupported_baseline_error_mentions_name [] "intel-haswell"
    "error finding EVC feature masks for intel-haswell" rfl

/-- Claim C10: for every value of the environment-supplied connection
parameters, `createClient` constructs the soap client with the insecure flag
set, so no run validates the endpoint certificate (main.go line 126,
`soap.NewClient(u, true)`). -/
theorem soap_client_always_insecure (v : EnvVars) :
    (createClientSoapConfig v).insecure = true := rfl

/-- Claim C2: whenever the pipeline resolves a mask list, the ApplyRequest it
submits carries exactly that list, element for element and in the same order,
with no reordering, removal, deduplication or addition in between. -/
theorem submitted_mask_list_eq_resolved
    (env : Env) (ctx : Ctx) (dc cluster evcMode vmName : String)
    (dcObj vm clusterObj evcMgrRef : ManagedObjectReference)
    (st : ClusterEVCManagerEVCState) (masks : List HostFeatureMask)
    (h1 : env.connect = Except.ok ())
    (h2 : env.datacenterLookup dc = Except.ok dcObj)
    (h3 : env.virtualMachineLookup (Finder.mk (some dcObj)) vmName = Except.ok vm)
    (h4 : env.clusterLookup (Finder.mk none) cluster = Except.ok clusterObj)
    (h5 : env.evcManagerOf clusterObj = Except.ok evcMgrRef)
    (h6 : env.retrieveEvcState evcMgrRef = Except.ok st)
    (h7 : resolveMasks st.supportedEVCMode evcMode = Except.ok masks) :
    CallEvent.applyEvcModeVMTask
        { thisRef := vm, mask := masks, completeMasks := some true }
      ∈ (doThings env ctx dc cluster evcMode vmName).1 := by
  simp only [doThings, h1, h2, h3, h4, h5, h6, h7]
  split <;> simp

/-- Claim C2, witness: in the sample environment the submitted request carries
exactly the resolved one-element mask list. -/
theorem submitted_mask_list_eq_resolved_witness :
    CallEvent.applyEvcModeVMTask
        { thisRef := ⟨"VirtualMachine", "vm-1"⟩, mask := [sampleMask],
          completeMasks := some true }
      ∈ (doThings sampleEnv ⟨false⟩ "DC" "CL" "intel-sandybridge" "vm").1 :=
  submitted_mask_list_eq_resolved sampleEnv ⟨false⟩ "DC" "CL" "intel-sandybridge" "vm"
    _ _ _ _ _ _ rfl rfl rfl rfl rfl rfl rfl

/-- Claim C3: every ApplyRequest the workflow submits, on every input and every
collaborator behaviour, has its completeness flag set to `some true`
(main.go lines 100-105: `isComplete := true; CompleteMasks: &isComplete`). -/
theorem applyRequest_completeMasks_always_true
    (env : Env) (ctx : Ctx) (dc cluster evcMode vmName : String)
    (req : ApplyEvcModeVM_Task)
    (h : CallEvent.applyEvcModeVMTask req
          ∈ (doThings env ctx dc cluster evcMode vmName).1) :
    req.completeMasks = some true := by
  unfold doThings at h
  repeat' split at h
  all_goals try simp_all
  all_goals try split at h
  all_goals simp_all

/-- Claim C3, witness: the request submitted in the sample environment has the
completeness flag true. -/
theorem applyRequest_completeMasks_always_true_witness :
    (ApplyEvcModeVM_Task.mk ⟨"VirtualMachine", "vm-1"⟩ [sampleMask]
        (some true)).completeMasks = some true :=
  applyRequest_completeMasks_always_true sampleEnv ⟨false⟩ "DC" "CL"
    "intel-sandybridge" "vm" _ (by decide)

/-- Claim C4: if any of the datacenter, cluster or VM flags, or any of the
GOVC_PASSWORD, GOVC_USERNAME, GOVC_URL environment variables, is empty (absent
values read as empty), the run fails with the configuration diagnostic and the
remote-call trace is empty: zero calls reach the connection collaborator. -/
theorem missing_config_zero_remote_calls
    (f : Flags) (v : EnvVars) (env : Env) (ctx : Ctx)
    (h : f.dc = "" ∨ f.cluster = "" ∨ f.vm = "" ∨
         v.govcPassword = "" ∨ v.govcUsername = "" ∨ v.govcUrl = "") :
    (mainRun f v env ctx).1 = [] ∧
    ∃ msg, (mainRun f v env ctx).2 = Except.error msg := by
  cases hc : configCheck f v with
  | some msg => exact ⟨by simp [mainRun, hc], msg, by simp [mainRun, hc]⟩
  | none =>
    exfalso
    unfold configCheck at hc
    split at hc
    · exact absurd hc (by simp)
    · split at hc
      · exact absurd hc (by simp)
      · simp_all

/-- Claim C4, witness: with an empty datacenter flag the run makes no remote
call and reports a configuration error. -/
theorem missing_config_zero_remote_calls_witness :
    (mainRun ⟨"", "CL", "vm", "intel-sandybridge"⟩ ⟨"p", "u", "vcenter.local"⟩
        sampleEnv ⟨false⟩).1 = [] ∧
    ∃ msg, (mainRun ⟨"", "CL", "vm", "intel-sandybridge"⟩ ⟨"p", "u", "vcenter.local"⟩
        sampleEnv ⟨false⟩).2 = Except.error msg :=
  missing_config_zero_remote_calls _ _ sampleEnv ⟨false⟩ (Or.inl rfl)

/-- Claim C5: when the awaited apply task reaches terminal success the workflow
returns success, and when it reaches terminal failure with reason R the
diagnostic line printed by main contains R verbatim. -/
theorem terminal_state_propagation
    (env : Env) (ctx : Ctx) (dc cluster evcMode vmName : String)
    (dcObj vm clusterObj evcMgrRef : ManagedObjectReference)
    (st : ClusterEVCManagerEVCState) (masks : List HostFeatureMask)
    (taskRef : ManagedObjectReference)
    (h1 : env.connect = Except.ok ())
    (h2 : env.datacenterLookup dc = Except.ok dcObj)
    (h3 : env.virtualMachineLookup (Finder.mk (some dcObj)) vmName = Except.ok vm)
    (h4 : env.clusterLookup (Finder.mk none) cluster = Except.ok clusterObj)
    (h5 : env.evcManagerOf clusterObj = Except.ok evcMgrRef)
    (h6 : env.retrieveEvcState evcMgrRef = Except.ok st)
    (h7 : resolveMasks st.supportedEVCMode evcMode = Except.ok masks)
    (h8 : env.submitApply { thisRef := vm, mask := masks, completeMasks := some true }
            = Except.ok taskRef)
    (h9 : ctx.cancelledDuringAwait = false) :
    (env.taskOutcome taskRef = TaskOutcome.success →
      (doThings env ctx dc cluster evcMode vmName).2 = Except.ok ()) ∧
    (∀ reason, env.taskOutcome taskRef = TaskOutcome.failure reason →
      ∃ pre post,
        mainReport (doThings env ctx dc cluster evcMode vmName).2
          = some (pre ++ reason ++ post)) := by
  have hres : (doThings env ctx dc cluster evcMode vmName).2
      = taskWaitModel ctx (env.taskOutcome taskRef) := by
    simp only [doThings, h1, h2, h3, h4, h5, h6, h7, h8]
  constructor
  · intro hs
    rw [hres]
    simp [taskWaitModel, h9, hs]
  · intro reason hf
    rw [hres]
    refine ⟨"error: ", "", ?_⟩
    simp [taskWaitModel, h9, hf, mainReport, String.append_empty]

/-- Claim C5, witness: the propagation property instantiated in the sample
environment, where every remote call succeeds. -/
theorem terminal_state_propagation_witness :
    (sampleEnv.taskOutcome ⟨"Task", "task-1"⟩ = TaskOutcome.success →
      (doThings sampleEnv ⟨false⟩ "DC" "CL" "intel-sandybridge" "vm").2
        = Except.ok ()) ∧
    (∀ reason, sampleEnv.taskOutcome ⟨"Task", "task-1"⟩ = TaskOutcome.failure reason →
      ∃ pre post,
        mainReport (doThings sampleEnv ⟨false⟩ "DC" "CL" "intel-sandybridge" "vm").2
          = some (pre ++ reason ++ post)) :=
  terminal_state_propagation sampleEnv ⟨false⟩ "DC" "CL" "intel-sandybridge" "vm"
    _ _ _ _ _ _ _ rfl rfl rfl rfl rfl rfl rfl rfl rfl

/-- Claim C6: modelled from the spec, the cluster lookup accepts an empty name
and resolves to the single cluster when exactly one is in scope, while an empty
name with two or more clusters in scope fails. -/
theorem cluster_lookup_empty_name_default
    (n : String) (ref : ManagedObjectReference)
    (scope : List (String × ManagedObjectReference))
    (h : 2 ≤ scope.length) :
    clusterComputeResourceOrDefault [(n, ref)] "" = Except.ok ref ∧
    ∃ e, clusterComputeResourceOrDefault scope "" = Except.error e := by
  constructor
  · rfl
  · match scope, h with
    | a :: b :: rest, _ =>
      exact ⟨"multiple clusters found, default is ambiguous", rfl⟩

/-- Claim C6, witness: a one-cluster scope resolves under the empty name, and a
two-cluster scope fails under the empty name. -/
theorem cluster_lookup_empty_name_default_witness :
    clusterComputeResourceOrDefault
        [("Cluster1", ⟨"ClusterComputeResource", "domain-c1"⟩)] ""
      = Except.ok ⟨"ClusterComputeResource", "domain-c1"⟩ ∧
    ∃ e, clusterComputeResourceOrDefault
        [("Cluster1", ⟨"ClusterComputeResource", "domain-c1"⟩),
         ("Cluster2", ⟨"ClusterComputeResource", "domain-c2"⟩)] ""
      = Except.error e :=
  cluster_lookup_empty_name_default "Cluster1" _ _ (by decide)

/-- Claim C7, counterexample: the claim says the cluster lookup runs in the
context of the already-resolved datacenter, but in the sample run the
datacenter resolves to datacenter-1 while the cluster lookup is performed by a
finder whose datacenter context is unset (main.go line 65 builds a fresh
`find.NewFinder` and never calls SetDatacenter on it). -/
theorem cluster_lookup_unscoped_cex :
    sampleEnv.datacenterLookup "DC"
        = Except.ok ⟨"Datacenter", "datacenter-1"⟩ ∧
    CallEvent.findClusterOrDefault none "CL"
        ∈ (doThings sampleEnv ⟨false⟩ "DC" "CL" "intel-sandybridge" "vm").1 ∧
    (none : Option ManagedObjectReference)
        ≠ some ⟨"Datacenter", "datacenter-1"⟩ := by
  refine ⟨rfl, by decide, by simp⟩

/-- Claim C7, amended: the VM lookup is carried out by the finder scoped to the
resolved datacenter, but the cluster lookup is carried out by a fresh finder
with no datacenter context set. -/
theorem finder_scoping_amended
    (env : Env) (ctx : Ctx) (dc cluster evcMode vmName : String)
    (d : Option ManagedObjectReference) (n : String) :
    (CallEvent.findVirtualMachine d n
        ∈ (doThings env ctx dc cluster evcMode vmName).1 →
      ∃ dcObj, env.datacenterLookup dc = Except.ok dcObj ∧ d = some dcObj) ∧
    (CallEvent.findClusterOrDefault d n
        ∈ (doThings env ctx dc cluster evcMode vmName).1 →
      d = none) := by
  unfold doThings
  constructor
  · intro h
    repeat' split at h
    all_goals try simp_all
    all_goals try split at h
    all_goals simp_all
  · intro h
    repeat' split at h
    all_goals try simp_all
    all_goals try split at h
    all_goals simp_all

/-- Claim C7 (amended), witness: in the sample run the VM lookup context is the
resolved datacenter and the cluster lookup context is unset. -/
theorem finder_scoping_amended_witness :
    (∃ dcObj, sampleEnv.datacenterLookup "DC" = Except.ok dcObj ∧
      (some (ManagedObjectReference.mk "Datacenter" "datacenter-1")
        : Option ManagedObjectReference) = some dcObj) ∧
    (none : Option ManagedObjectReference) = none :=
  ⟨(finder_scoping_amended sampleEnv ⟨false⟩ "DC" "CL" "intel-sandybridge" "vm"
      (some ⟨"Datacenter", "datacenter-1"⟩) "vm").1 (by decide),
   (finder_scoping_amended sampleEnv ⟨false⟩ "DC" "CL" "intel-sandybridge" "vm"
      none "CL").2 (by decide)⟩

/-- Claim C9: `doThings` threads its context into the task wait; when the
cancellation signal fires while awaiting the apply task, the wait aborts with
the cancellation error and no further remote call is made after the wait (the
trace ends at the wait: no server-side rollback is attempted). -/
theorem cancellation_aborts_wait
    (env : Env) (ctx : Ctx) (dc cluster evcMode vmName : String)
    (dcObj vm clusterObj evcMgrRef : ManagedObjectReference)
    (st : ClusterEVCManagerEVCState) (masks : List HostFeatureMask)
    (taskRef : ManagedObjectReference)
    (h1 : env.connect = Except.ok ())
    (h2 : env.datacenterLookup dc = Except.ok dcObj)
    (h3 : env.virtualMachineLookup (Finder.mk (some dcObj)) vmName = Except.ok vm)
    (h4 : env.clusterLookup (Finder.mk none) cluster = Except.ok clusterObj)
    (h5 : env.evcManagerOf clusterObj = Except.ok evcMgrRef)
    (h6 : env.retrieveEvcState evcMgrRef = Except.ok st)
    (h7 : resolveMasks st.supportedEVCMode evcMode = Except.ok masks)
    (h8 : env.submitApply { thisRef := vm, mask := masks, completeMasks := some true }
            = Except.ok taskRef)
    (h9 : ctx.cancelledDuringAwait = true) :
    (doThings env ctx dc cluster evcMode vmName).2
        = Except.error "context canceled" ∧
    (doThings env ctx dc cluster evcMode vmName).1.getLast?
        = some (CallEvent.taskWait taskRef) := by
  constructor
  · simp only [doThings, h1, h2, h3, h4, h5, h6, h7, h8]
    simp [taskWaitModel, h9]
  · simp only [doThings, h1, h2, h3, h4, h5, h6, h7, h8]
    rfl

/-- Claim C9, witness: the cancellation behaviour instantiated in the sample
environment with the signal firing during the await. -/
theorem cancellation_aborts_wait_witness :
    (doThings sampleEnv ⟨true⟩ "DC" "CL" "intel-sandybridge" "vm").2
        = Except.error "context canceled" ∧
    (doThings sampleEnv ⟨true⟩ "DC" "CL" "intel-sandybridge" "vm").1.getLast?
        = some (CallEvent.taskWait ⟨"Task", "task-1"⟩) :=
  cancellation_aborts_wait sampleEnv ⟨true⟩ "DC" "CL" "intel-sandybridge" "vm"
    _ _ _ _ _ _ _ rfl rfl rfl rfl rfl rfl rfl rfl rfl

end GovmomiPlayground
